import Mathlib

/-!
Shallow embedding of the pimentas-api service-worker caching layer.

The repository ships several service-worker variants:
* `src/unnamed/part_000` — the "v4.0" worker (`STATIC_CACHE = "static-v4.0"`);
* `src/unnamed/part_001` — the "Corrigido" worker (`CACHE_NAME = "pimentas-cache-v1"`);
* `src/static/sw.js` — an interleave of a "v5.0" strand (textually the same logic as
  part_000) and a "basic" strand (`CACHE = "pimentas-v1"`, lines 12-21, 25-26, 38-40,
  45-48, 63-76, 88-100), followed after a document separator by a "guarded" worker
  (lines 103-161, `CACHE_NAME = 'pimentas-v1'`, non-GET guard, /predict and /warmup
  network-only branch, 200/same-origin store guard).

Each variant is embedded as its own install / activate / fetch function over an
explicit store.  The Cache API collaborators (`caches.open`, `cache.match`,
`caches.match`, `cache.put`, `cache.addAll`, `caches.keys`, `caches.delete`) are
modelled with their platform semantics: `put` rejects non-GET requests (modelled as a
no-op on the store, as the rejection is fire-and-forget in all variants), `match`
never matches a non-GET request, `addAll` rejects as soon as any fetch rejects or any
response is not ok, `caches.match` searches caches in creation order.

The network is an oracle `net : Request → Option Response`; `none` is a transport
error (a rejected fetch).  A fetch-event handler produces a `FetchOutcome`:
`bypass` when the listener returns without calling `respondWith` (browser default
handling), `respond r` when `respondWith` resolves with response `r`, and
`respondErr` when the promise given to `respondWith` rejects or resolves with
`undefined` — in both cases the page sees a network error.
-/

/-- A response as the worker observes it: status and body. -/
structure Response where
  status : Nat
  body   : String
deriving DecidableEq

/-- A request: method plus the origin and pathname of its URL. -/
structure Request where
  method : String
  origin : String
  path   : String
deriving DecidableEq

/-- Cache keys are the request URL (origin, pathname); stored entries are GET-only. -/
abbrev Key := String × String

/-- The key of a request's URL. -/
def Request.key (r : Request) : Key := (r.origin, r.path)

/-- One cache generation: an association list from keys to stored responses. -/
abbrev Cache := List (Key × Response)

/-- The whole cache storage: named generations in creation order. -/
abbrev Store := List (String × Cache)

/-- JavaScript `s.startsWith(p)` on pathnames, as a character-list test. -/
def listPrefixOf : List Char → List Char → Bool
  | [], _ => true
  | _ :: _, [] => false
  | a :: as, b :: bs => a == b && listPrefixOf as bs

/-- `jsStartsWith s p` models `s.startsWith(p)` from the source. -/
def jsStartsWith (s p : String) : Bool := listPrefixOf p.data s.data

/-- Lookup of a key inside one cache. -/
def cacheLookup (c : Cache) (k : Key) : Option Response :=
  match c.find? (fun e => e.1 == k) with
  | some e => some e.2
  | none => none

/-- The entries of a named cache (empty when the cache does not exist). -/
def getCache (s : Store) (name : String) : Cache :=
  match s.find? (fun g => g.1 == name) with
  | some g => g.2
  | none => []

/-- Whether a cache of this name exists. -/
def hasCache (s : Store) (name : String) : Bool := s.any (fun g => g.1 == name)

/-- `caches.open(name)`: creates the cache when absent (at the end, in creation order). -/
def openCache (s : Store) (name : String) : Store :=
  if hasCache s name then s else s ++ [(name, [])]

/-- Overwrite of the entry for a key within one cache (at most one entry per key). -/
def putEntry (c : Cache) (k : Key) (r : Response) : Cache :=
  (k, r) :: c.filter (fun e => !(e.1 == k))

/-- The `caches.open(name).then(c => c.put(req, resp))` chain of the source: the open
always runs, creating the cache when absent; the put then overwrites the entry for
the request's URL key for a GET request, and rejects for a non-GET request — the
rejection is fire-and-forget in every variant, so the entries stay unchanged but the
opened cache remains created. -/
def cachePut (s : Store) (name : String) (req : Request) (r : Response) : Store :=
  if req.method == "GET" then
    (openCache s name).map (fun g => if g.1 == name then (g.1, putEntry g.2 req.key r) else g)
  else openCache s name

/-- `cache.match(req)` on the named cache: a non-GET request never matches. -/
def cacheMatchIn (s : Store) (name : String) (req : Request) : Option Response :=
  if req.method == "GET" then cacheLookup (getCache s name) req.key else none

/-- `caches.match(req)`: first match over all caches in creation order. -/
def cachesMatch (s : Store) (req : Request) : Option Response :=
  if req.method == "GET" then (s.filterMap (fun g => cacheLookup g.2 req.key)).head?
  else none

/-- `caches.keys()` as generation ids (cache names are unique in the Cache API). -/
def listGenerations (s : Store) : List String := (s.map Prod.fst).dedup

/-- The application's own origin, `location.origin` of the service worker. -/
def selfOrigin : String := "https://pimentas.app"

/-- A GET request of the app's origin for a manifest path. -/
def mkGet (p : String) : Request := { method := "GET", origin := selfOrigin, path := p }

/-- The `new Response("Offline", { status: 503 })` fallback. -/
def offline503 : Response := { status := 503, body := "Offline" }

/-- `response.ok`: status in the 2xx range (what `cache.addAll` demands). -/
def respOk (r : Response) : Bool := 200 ≤ r.status && r.status ≤ 299

/-- Result of a fetch-event listener. -/
inductive FetchOutcome
  | bypass
  | respond (r : Response)
  | respondErr
deriving DecidableEq

/-- Fetch-and-check phase of `cache.addAll(paths)`: all paths are fetched; the batch
fails as soon as a fetch rejects or a response is not ok. -/
def fetchAll (net : Request → Option Response) : List String → Option (List (Request × Response))
  | [] => some []
  | p :: rest =>
    match net (mkGet p) with
    | none => none
    | some r =>
      if respOk r then (fetchAll net rest).map (fun tl => (mkGet p, r) :: tl) else none

/-- `event.waitUntil(caches.open(name).then(c => c.addAll(shell)))`: the install step
shared by every variant.  `none` means the install task rejected. -/
def installSW (net : Request → Option Response) (s : Store) (name : String)
    (shell : List String) : Option Store :=
  (fetchAll net shell).map
    (fun pairs => pairs.foldl (fun st pr => cachePut st name pr.1 pr.2) (openCache s name))

/-- Cache name of the part_000 ("v4.0") worker. -/
def STATIC_CACHE_v4 : String := "static-v4.0"

/-- APP_SHELL of the part_000 worker. -/
def APP_SHELL_v4 : List String :=
  ["/", "/ui", "/info", "/static/manifest.webmanifest", "/static/pimenta-logo.png",
   "/static/pimenta-512.png", "/static/splash.png", "/static/pepper_info.json"]

/-- Cache name of the part_001 ("Corrigido") worker. -/
def CACHE_NAME_corrigido : String := "pimentas-cache-v1"

/-- APP_SHELL of the part_001 worker. -/
def APP_SHELL_corrigido : List String :=
  ["/ui", "/info", "/static/manifest.webmanifest", "/static/icons/pimenta-192.png",
   "/static/icons/pimenta-512.png", "/static/icons/splash.png", "/static/pepper_info.json"]

/-- Cache name of the sw.js "basic" strand. -/
def CACHE_basic : String := "pimentas-v1"

/-- ASSETS of the sw.js "basic" strand. -/
def ASSETS_basic : List String :=
  ["/", "/ui", "/manifest.webmanifest", "/static/pimenta-logo.png",
   "/static/pimenta-512.png", "/static/splash.png", "/static/pepper_info.json"]

/-- Cache name of the sw.js "guarded" worker (after the document separator). -/
def CACHE_NAME_guarded : String := "pimentas-v1"

/-- Install of the part_000 worker (`caches.open(STATIC_CACHE).then(c => c.addAll(APP_SHELL))`). -/
def install_v4 (net : Request → Option Response) (s : Store) : Option Store :=
  installSW net s STATIC_CACHE_v4 APP_SHELL_v4

/-- Install of the part_001 worker. -/
def install_corrigido (net : Request → Option Response) (s : Store) : Option Store :=
  installSW net s CACHE_NAME_corrigido APP_SHELL_corrigido

/-- Install of the sw.js basic strand. -/
def install_basic (net : Request → Option Response) (s : Store) : Option Store :=
  installSW net s CACHE_basic ASSETS_basic

/-- Activate of the part_000 worker: deletes every cache whose name differs from
`STATIC_CACHE`, then claims clients. -/
def activate_v4 (s : Store) : Store := s.filter (fun g => g.1 == STATIC_CACHE_v4)

/-- Activate of the part_001 worker: deletes every cache whose name differs from
`CACHE_NAME`, then claims clients. -/
def activate_corrigido (s : Store) : Store := s.filter (fun g => g.1 == CACHE_NAME_corrigido)

/-- Activate of the sw.js basic strand (lines 38-40): only `self.clients.claim()`,
no cache is deleted. -/
def activate_basic (s : Store) : Store := s

/-- Fetch listener of the part_000 ("v4.0") worker, lines 29-57:
`/predict` is never intercepted; `/static/` paths are cache-first in `STATIC_CACHE`
(an uncaught fetch rejection surfaces); `/`, `/ui`, `/info` are network-first with
an unconditional `cache.put` on success and `caches.match` as the only fallback
(`respondWith(undefined)` — a surfaced error — on a miss); anything else falls
through uninterception. -/
def handleFetch_v4 (net : Request → Option Response) (s : Store) (req : Request) :
    FetchOutcome × Store :=
  if jsStartsWith req.path "/predict" then (.bypass, s)
  else if jsStartsWith req.path "/static/" then
    match cacheMatchIn (openCache s STATIC_CACHE_v4) STATIC_CACHE_v4 req with
    | some hit => (.respond hit, openCache s STATIC_CACHE_v4)
    | none =>
      match net req with
      | some r => (.respond r, cachePut (openCache s STATIC_CACHE_v4) STATIC_CACHE_v4 req r)
      | none => (.respondErr, openCache s STATIC_CACHE_v4)
  else if req.path == "/" || req.path == "/ui" || req.path == "/info" then
    match net req with
    | some r => (.respond r, cachePut s STATIC_CACHE_v4 req r)
    | none =>
      match cachesMatch s req with
      | some hit => (.respond hit, s)
      | none => (.respondErr, s)
  else (.bypass, s)

/-- Fetch listener of the part_001 ("Corrigido") worker, lines 55-107:
POST or `/predict` requests are not intercepted (the stray `return fetch(...)` does
not call `respondWith`); `/ui`, `/info`, `/` are network-first with an unconditional
put on success and `caches.match` as the only fallback; everything else is
cache-first with an unconditional put and no catch on the network fetch. -/
def handleFetch_corrigido (net : Request → Option Response) (s : Store) (req : Request) :
    FetchOutcome × Store :=
  if req.method == "POST" || jsStartsWith req.path "/predict" then (.bypass, s)
  else if req.path == "/ui" || req.path == "/info" || req.path == "/" then
    match net req with
    | some r => (.respond r, cachePut s CACHE_NAME_corrigido req r)
    | none =>
      match cachesMatch s req with
      | some hit => (.respond hit, s)
      | none => (.respondErr, s)
  else
    match cachesMatch s req with
    | some hit => (.respond hit, s)
    | none =>
      match net req with
      | some r => (.respond r, cachePut s CACHE_NAME_corrigido req r)
      | none => (.respondErr, s)

/-- Fetch listener of the sw.js "basic" strand (lines 45-48, 63-76, 88-100):
`/predict` is never intercepted; `/ui` and paths starting with `/info` are
network-first with an unconditional put and `cached || Response("Offline", 503)` on
failure; everything else is cache-first with an unconditional put and the 503
"Offline" response on network failure. -/
def handleFetch_basic (net : Request → Option Response) (s : Store) (req : Request) :
    FetchOutcome × Store :=
  if jsStartsWith req.path "/predict" then (.bypass, s)
  else if req.path == "/ui" || jsStartsWith req.path "/info" then
    match net req with
    | some r => (.respond r, cachePut s CACHE_basic req r)
    | none =>
      match cachesMatch s req with
      | some hit => (.respond hit, s)
      | none => (.respond offline503, s)
  else
    match cachesMatch s req with
    | some hit => (.respond hit, s)
    | none =>
      match net req with
      | some r => (.respond r, cachePut s CACHE_basic req r)
      | none => (.respond offline503, s)

/-- Fetch listener of the sw.js "guarded" worker (lines 134-161):
non-GET methods are never intercepted; `/predict` and `/warmup` paths go to the
network with a synthesized 503 "Offline" on failure and are never cached;
everything else is cache-first via `caches.match`, and a fetched response is stored
only when its status is 200 and the request URL's origin equals `location.origin`
(the fetch has no catch, so a rejection surfaces). -/
def handleFetch_guarded (net : Request → Option Response) (s : Store) (req : Request) :
    FetchOutcome × Store :=
  if !(req.method == "GET") then (.bypass, s)
  else if jsStartsWith req.path "/predict" || jsStartsWith req.path "/warmup" then
    match net req with
    | some r => (.respond r, s)
    | none => (.respond offline503, s)
  else
    match cachesMatch s req with
    | some hit => (.respond hit, s)
    | none =>
      match net req with
      | some r =>
        (.respond r,
          if r.status == 200 && req.origin == selfOrigin then cachePut s CACHE_NAME_guarded req r
          else s)
      | none => (.respondErr, s)

/-- A cache of the requested name always exists after `caches.open`. -/
theorem hasCache_openCache (s : Store) (n : String) : hasCache (openCache s n) n = true := by
  by_cases h : hasCache s n = true
  · simp [openCache, h]
  · simp only [openCache, h, Bool.false_eq_true, if_false]
    simp [hasCache, List.any_append]

/-- Opening an existing cache leaves the store unchanged. -/
theorem openCache_of_has (s : Store) (n : String) (h : hasCache s n = true) :
    openCache s n = s := by
  simp [openCache, h]

/-- An overwritten entry is found by a subsequent lookup of the same key. -/
theorem cacheLookup_putEntry (c : Cache) (k : Key) (r : Response) :
    cacheLookup (putEntry c k r) k = some r := by
  simp [cacheLookup, putEntry, List.find?]

/-- Updating the named cache inside the generation list updates exactly its entries. -/
theorem getCache_map_put (l : Store) (n : String) (k : Key) (r : Response)
    (h : hasCache l n = true) :
    getCache (l.map (fun g => if g.1 == n then (g.1, putEntry g.2 k r) else g)) n
      = putEntry (getCache l n) k r := by
  induction l with
  | nil => simp [hasCache] at h
  | cons g gs ih =>
    by_cases hg : g.1 == n
    · simp [getCache, List.find?, hg]
    · have h' : hasCache gs n = true := by
        simpa [hasCache, List.any_cons, hg] using h
      have := ih h'
      simpa [getCache, List.find?, hg] using this

/-- A GET `cache.put` is observable by `cache.match` on the same cache and request. -/
theorem cacheMatchIn_cachePut (s : Store) (n : String) (req : Request) (r : Response)
    (h : req.method = "GET") :
    cacheMatchIn (cachePut s n req r) n req = some r := by
  have hb : (req.method == "GET") = true := by simp [h]
  simp only [cachePut, cacheMatchIn, hb, if_true]
  rw [getCache_map_put _ _ _ _ (hasCache_openCache s n)]
  exact cacheLookup_putEntry _ _ _

/-- `cache.put` never deletes a cache: existing generation names survive. -/
theorem hasCache_cachePut (s : Store) (n n' : String) (req : Request) (r : Response)
    (h : hasCache s n = true) : hasCache (cachePut s n' req r) n = true := by
  have hopen : hasCache (openCache s n') n = true := by
    by_cases h' : hasCache s n' = true
    · simpa [openCache, h'] using h
    · simp only [openCache, h', Bool.false_eq_true, if_false]
      simp only [hasCache, List.any_append] at h ⊢
      simp [h]
  by_cases hm : (req.method == "GET") = true
  · simp only [cachePut, hm, if_true]
    simp only [hasCache, List.any_map] at hopen ⊢
    have : ∀ g : String × Cache,
        ((if g.1 == n' then (g.1, putEntry g.2 req.key r) else g).1 == n) = (g.1 == n) := by
      intro g; by_cases hg : g.1 == n' <;> simp [hg]
    have hfun : (fun (g : String × Cache) =>
        (if g.1 == n' then (g.1, putEntry g.2 req.key r) else g).1 == n)
        = (fun g => g.1 == n) := funext this
    simp only [Function.comp_def]
    rw [hfun]
    exact hopen
  · simpa [cachePut, hm] using hopen

/-- Folding GET puts over a store preserves the presence of a generation. -/
theorem hasCache_foldl (pairs : List (Request × Response)) (st : Store) (n n' : String)
    (h : hasCache st n = true) :
    hasCache (pairs.foldl (fun acc pr => cachePut acc n' pr.1 pr.2) st) n = true := by
  induction pairs generalizing st with
  | nil => simpa using h
  | cons pr rest ih =>
    exact ih _ (hasCache_cachePut _ _ _ _ _ h)

/-- A nonempty list all of whose elements equal `n` deduplicates to `[n]`. -/
theorem dedup_all_eq {l : List String} {n : String} (h0 : l ≠ [])
    (h : ∀ x ∈ l, x = n) : l.dedup = [n] := by
  have hnd : l.dedup.Nodup := List.nodup_dedup l
  have hmem : ∀ x, x ∈ l.dedup ↔ x ∈ l := fun x => List.mem_dedup
  cases hd : l.dedup with
  | nil =>
    exact absurd ((List.dedup_eq_nil l).mp hd) h0
  | cons a t =>
    have ha : a = n := h a ((hmem a).mp (hd ▸ List.mem_cons_self a t))
    have ht : t = [] := by
      by_contra hne
      obtain ⟨x, hx⟩ := List.exists_mem_of_ne_nil t hne
      have hxl : x ∈ l := (hmem x).mp (hd ▸ List.mem_cons_of_mem a hx)
      have hxa : x = n := h x hxl
      have : a ∉ t := by
        have := hd ▸ hnd
        exact (List.nodup_cons.mp this).1
      exact this (by rw [ha, ← hxa]; exact hx)
    rw [ha, ht]

/-- Deleting every generation other than `n` from a store containing `n` leaves
exactly the generation id `n`. -/
theorem listGenerations_filter (s : Store) (n : String) (h : hasCache s n = true) :
    listGenerations (s.filter (fun g => g.1 == n)) = [n] := by
  have hmem : ∃ g ∈ s, (g.1 == n) = true := by
    simpa [hasCache, List.any_eq_true] using h
  obtain ⟨g, hg, hgn⟩ := hmem
  have hne : s.filter (fun g => g.1 == n) ≠ [] := by
    intro hnil
    have : g ∈ s.filter (fun g => g.1 == n) := List.mem_filter.mpr ⟨hg, hgn⟩
    simp [hnil] at this
  apply dedup_all_eq
  · intro hnil
    exact hne (List.map_eq_nil_iff.mp hnil)
  · intro x hx
    obtain ⟨g', hg', hfst⟩ := List.mem_map.mp hx
    have := (List.mem_filter.mp hg').2
    have : g'.1 = n := by simpa using this
    rw [← hfst, this]

/-- `cache.addAll` rejects as soon as any manifest fetch rejects. -/
theorem fetchAll_none (net : Request → Option Response) (shell : List String) (p : String)
    (hp : p ∈ shell) (h : net (mkGet p) = none) : fetchAll net shell = none := by
  induction shell with
  | nil => simp at hp
  | cons q rest ih =>
    rcases List.mem_cons.mp hp with hq | hrest
    · subst hq
      simp [fetchAll, h]
    · simp only [fetchAll]
      cases hq : net (mkGet q) with
      | none => rfl
      | some r =>
        by_cases hok : respOk r = true
        · simp [hok, ih hrest]
        · simp [hok]

/-- A successful 200 "ok" body response used as a concrete network answer. -/
def respOKv : Response := { status := 200, body := "ok" }

/-- A network oracle that answers every request with `respOKv`. -/
def netOK : Request → Option Response := fun _ => some respOKv

/-- A cached shell response used in concrete stores. -/
def respW : Response := { status := 200, body := "shell" }

/-- The store produced by a successful part_000 install over the empty storage. -/
def s1W : Store := (install_v4 netOK []).getD []

/-- The store produced by a successful part_001 install over the empty storage. -/
def s2W : Store := (install_corrigido netOK []).getD []

/-- A storage still holding a stale generation next to the basic worker's one. -/
def staleStore : Store := [(CACHE_basic, []), ("static-old", [])]

/-- C5: if the fetch of any single app-shell manifest entry fails, the whole
install step (`caches.open(name).then(c => c.addAll(shell))`) rejects — there is
no partially-populated generation reported as a successful install. -/
theorem c5_install_fails_atomically (net : Request → Option Response) (s : Store)
    (name : String) (shell : List String) (p : String)
    (hp : p ∈ shell) (hfail : net (mkGet p) = none) :
    installSW net s name shell = none := by
  simp [installSW, fetchAll_none net shell p hp hfail]

/-- Witness for C5: the part_000 install over a fully failing network rejects. -/
theorem c5_install_fails_atomically_witness : install_v4 (fun _ => none) [] = none :=
  c5_install_fails_atomically _ _ _ _ "/" (by decide) rfl

/-- C3: a request whose path starts with `/predict` never touches the store: the
part_000, part_001 and sw.js-basic listeners do not intercept it at all, and the
sw.js-guarded listener leaves the store unchanged and only ever responds with the
network's own response or the synthesized 503 — never with a stored entry. -/
theorem c3_volatile_never_cached (net : Request → Option Response) (s : Store) (req : Request)
    (hp : jsStartsWith req.path "/predict" = true) :
    handleFetch_v4 net s req = (FetchOutcome.bypass, s)
    ∧ handleFetch_corrigido net s req = (FetchOutcome.bypass, s)
    ∧ handleFetch_basic net s req = (FetchOutcome.bypass, s)
    ∧ (handleFetch_guarded net s req).2 = s
    ∧ ∀ r, (handleFetch_guarded net s req).1 = FetchOutcome.respond r →
        net req = some r ∨ r = offline503 := by
  refine ⟨by simp [handleFetch_v4, hp], by simp [handleFetch_corrigido, hp],
    by simp [handleFetch_basic, hp], ?_, ?_⟩
  · cases hm : (req.method == "GET") with
    | false => simp [handleFetch_guarded, hm]
    | true => cases hnet : net req <;> simp [handleFetch_guarded, hm, hp, hnet]
  · intro r hr
    cases hm : (req.method == "GET") with
    | false => simp [handleFetch_guarded, hm] at hr
    | true =>
      cases hnet : net req with
      | none =>
        right
        simp [handleFetch_guarded, hm, hp, hnet] at hr
        exact hr.symm
      | some r0 =>
        left
        simp [handleFetch_guarded, hm, hp, hnet] at hr
        exact congrArg some hr

/-- Witness for C3: a `/predict` request is bypassed by the part_000 and part_001
listeners with the store untouched. -/
theorem c3_volatile_never_cached_witness :
    handleFetch_v4 (fun _ => none) [] (mkGet "/predict") = (FetchOutcome.bypass, [])
    ∧ handleFetch_corrigido (fun _ => none) [] (mkGet "/predict") = (FetchOutcome.bypass, []) :=
  ⟨(c3_volatile_never_cached (fun _ => none) [] (mkGet "/predict") (by decide)).1,
   (c3_volatile_never_cached (fun _ => none) [] (mkGet "/predict") (by decide)).2.1⟩

/-- Counterexample for C1: in the part_000 worker, a network-first `/ui` request whose
fetch rejects and whose key is absent from the store makes `respondWith` resolve with
`undefined` — the page sees a network error, not the `{status: 503, body: "Offline"}`
response the claim requires. -/
theorem c1_network_first_counterexample :
    (handleFetch_v4 (fun _ => none) [(STATIC_CACHE_v4, [])] (mkGet "/ui")).1
      = FetchOutcome.respondErr
    ∧ FetchOutcome.respondErr ≠ FetchOutcome.respond offline503 := by decide

/-- C1 amended: in the sw.js basic network-first handler (the variant with the
`cached || new Response("Offline", {status: 503})` fallback) a rejected fetch is
answered with the stored entry when present and with the 503 "Offline" response
otherwise, and no transport error surfaces; in the part_000/part_001 network-first
handlers the fallback is `caches.match` alone, so a cache miss surfaces an error. -/
theorem c1_network_first_fallback (net : Request → Option Response) (s : Store)
    (req : Request) (hit : Response)
    (hpage : (req.path == "/ui" || jsStartsWith req.path "/info") = true)
    (hnp : jsStartsWith req.path "/predict" = false)
    (hnet : net req = none) :
    (cachesMatch s req = some hit →
      handleFetch_basic net s req = (FetchOutcome.respond hit, s))
    ∧ (cachesMatch s req = none →
      handleFetch_basic net s req = (FetchOutcome.respond offline503, s)) := by
  constructor <;> intro hc <;> simp [handleFetch_basic, hnp, hpage, hnet, hc]

/-- Witness for C1 (amended): offline `/ui` with a cached shell entry returns that
entry; offline `/ui` with an empty store returns the 503 "Offline" response. -/
theorem c1_network_first_fallback_witness :
    handleFetch_basic (fun _ => none) [(CACHE_basic, [((selfOrigin, "/ui"), respW)])]
        (mkGet "/ui")
      = (FetchOutcome.respond respW, [(CACHE_basic, [((selfOrigin, "/ui"), respW)])])
    ∧ handleFetch_basic (fun _ => none) [] (mkGet "/ui")
      = (FetchOutcome.respond offline503, []) :=
  ⟨(c1_network_first_fallback (fun _ => none) _ (mkGet "/ui") respW (by decide) (by decide)
      rfl).1 (by decide),
   (c1_network_first_fallback (fun _ => none) [] (mkGet "/ui") respW (by decide) (by decide)
      rfl).2 (by decide)⟩

/-- Counterexample for C2: the part_000 listener has no method guard, so a PUT to
`/ui` is intercepted (its network-first branch calls `respondWith`), not bypassed as
the claim states. -/
theorem c2_bypass_counterexample :
    (handleFetch_v4 (fun _ => some respOKv) [(STATIC_CACHE_v4, [])]
        { method := "PUT", origin := selfOrigin, path := "/ui" }).1
      = FetchOutcome.respond respOKv
    ∧ FetchOutcome.respond respOKv ≠ FetchOutcome.bypass := by decide

/-- C2 amended: only the sw.js guarded listener bypasses every non-GET request;
the part_000/part_001/basic listeners can intercept and answer non-GET requests.
Still, on any store already holding the worker's generation (the steady state after
its install) a non-GET request leaves the store exactly unchanged in all four
listeners — the Cache API rejects `put` for non-GET requests and `match` never
matches them, and the `caches.open` in the put chain finds the generation already
present — so no cache entry is ever created for a non-GET request. -/
theorem c2_non_get_never_stored (net : Request → Option Response) (s : Store) (req : Request)
    (hm : req.method ≠ "GET") (hc : hasCache s STATIC_CACHE_v4 = true)
    (hc2 : hasCache s CACHE_NAME_corrigido = true) (hc3 : hasCache s CACHE_basic = true) :
    handleFetch_guarded net s req = (FetchOutcome.bypass, s)
    ∧ (handleFetch_v4 net s req).2 = s
    ∧ (handleFetch_corrigido net s req).2 = s
    ∧ (handleFetch_basic net s req).2 = s := by
  have hb : (req.method == "GET") = false := by
    rw [beq_eq_false_iff_ne]
    exact hm
  have hopen := openCache_of_has s STATIC_CACHE_v4 hc
  have hopen2 := openCache_of_has s CACHE_NAME_corrigido hc2
  have hopen3 := openCache_of_has s CACHE_basic hc3
  refine ⟨by simp [handleFetch_guarded, hb], ?_, ?_, ?_⟩
  · cases hpred : jsStartsWith req.path "/predict" with
    | true => simp [handleFetch_v4, hpred]
    | false =>
      cases hstat : jsStartsWith req.path "/static/" with
      | true =>
        cases hnet : net req <;>
          simp [handleFetch_v4, hpred, hstat, cacheMatchIn, cachePut, hb, hnet, hopen]
      | false =>
        cases hpage : (req.path == "/" || req.path == "/ui" || req.path == "/info") with
        | true =>
          cases hnet : net req <;>
            simp [handleFetch_v4, hpred, hstat, hpage, cachesMatch, cachePut, hb, hnet, hopen]
        | false => simp [handleFetch_v4, hpred, hstat, hpage]
  · cases hpost : (req.method == "POST" || jsStartsWith req.path "/predict") with
    | true => simp [handleFetch_corrigido, hpost]
    | false =>
      cases hpage : (req.path == "/ui" || req.path == "/info" || req.path == "/") with
      | true =>
        cases hnet : net req <;>
          simp [handleFetch_corrigido, hpost, hpage, cachesMatch, cachePut, hb, hnet, hopen2]
      | false =>
        cases hnet : net req <;>
          simp [handleFetch_corrigido, hpost, hpage, cachesMatch, cachePut, hb, hnet, hopen2]
  · cases hpred : jsStartsWith req.path "/predict" with
    | true => simp [handleFetch_basic, hpred]
    | false =>
      cases hpage : (req.path == "/ui" || jsStartsWith req.path "/info") with
      | true =>
        cases hnet : net req <;>
          simp [handleFetch_basic, hpred, hpage, cachesMatch, cachePut, hb, hnet, hopen3]
      | false =>
        cases hnet : net req <;>
          simp [handleFetch_basic, hpred, hpage, cachesMatch, cachePut, hb, hnet, hopen3]

/-- Witness for C2 (amended): with every worker's generation present, a PUT to `/ui`
is bypassed by the guarded listener and leaves the part_000 and part_001 stores
unchanged. -/
theorem c2_non_get_never_stored_witness :
    handleFetch_guarded netOK
        [(STATIC_CACHE_v4, []), (CACHE_NAME_corrigido, []), (CACHE_basic, [])]
        { method := "PUT", origin := selfOrigin, path := "/ui" }
      = (FetchOutcome.bypass,
         [(STATIC_CACHE_v4, []), (CACHE_NAME_corrigido, []), (CACHE_basic, [])])
    ∧ (handleFetch_v4 netOK
        [(STATIC_CACHE_v4, []), (CACHE_NAME_corrigido, []), (CACHE_basic, [])]
        { method := "PUT", origin := selfOrigin, path := "/ui" }).2
      = [(STATIC_CACHE_v4, []), (CACHE_NAME_corrigido, []), (CACHE_basic, [])]
    ∧ (handleFetch_corrigido netOK
        [(STATIC_CACHE_v4, []), (CACHE_NAME_corrigido, []), (CACHE_basic, [])]
        { method := "PUT", origin := selfOrigin, path := "/ui" }).2
      = [(STATIC_CACHE_v4, []), (CACHE_NAME_corrigido, []), (CACHE_basic, [])] :=
  ⟨(c2_non_get_never_stored netOK _ _ (by decide) (by decide) (by decide) (by decide)).1,
   (c2_non_get_never_stored netOK _ _ (by decide) (by decide) (by decide) (by decide)).2.1,
   (c2_non_get_never_stored netOK _ _ (by decide) (by decide) (by decide) (by decide)).2.2.1⟩

/-- Counterexample for C4: the sw.js activate listener at lines 38-40 only calls
`self.clients.claim()`; with a stale generation present it deletes nothing, so two
generation ids remain — not exactly one. -/
theorem c4_reaper_counterexample :
    activate_basic staleStore = staleStore
    ∧ listGenerations (activate_basic staleStore) ≠ [CACHE_basic]
    ∧ (listGenerations (activate_basic staleStore)).length = 2 := by decide

/-- C4 amended: after the part_000 or part_001 activate handler runs on the storage
left by that worker's successful install, exactly one generation id remains — the
one just installed; the sw.js basic activate handler (lines 38-40) deletes nothing. -/
theorem c4_reaper_single_generation (net : Request → Option Response) (s0 s1 s2 : Store) :
    (install_v4 net s0 = some s1 →
      listGenerations (activate_v4 s1) = [STATIC_CACHE_v4])
    ∧ (install_corrigido net s0 = some s2 →
      listGenerations (activate_corrigido s2) = [CACHE_NAME_corrigido]) := by
  constructor
  · intro h
    obtain ⟨pairs, hf, hfold⟩ := Option.map_eq_some'.mp h
    have hhas : hasCache s1 STATIC_CACHE_v4 = true := by
      rw [← hfold]
      exact hasCache_foldl _ _ _ _ (hasCache_openCache s0 STATIC_CACHE_v4)
    exact listGenerations_filter s1 _ hhas
  · intro h
    obtain ⟨pairs, hf, hfold⟩ := Option.map_eq_some'.mp h
    have hhas : hasCache s2 CACHE_NAME_corrigido = true := by
      rw [← hfold]
      exact hasCache_foldl _ _ _ _ (hasCache_openCache s0 CACHE_NAME_corrigido)
    exact listGenerations_filter s2 _ hhas

/-- Witness for C4 (amended): installing part_000's shell over empty storage and
activating leaves exactly the generation `static-v4.0`. -/
theorem c4_reaper_single_generation_witness :
    install_v4 netOK [] = some s1W
    ∧ listGenerations (activate_v4 s1W) = [STATIC_CACHE_v4] :=
  ⟨by decide, (c4_reaper_single_generation netOK [] s1W s2W).1 (by decide)⟩

/-- C6: a cache-first request whose key is already stored is answered with the stored
entry and the store is unchanged, for every network oracle — the response does not
depend on the network, so no network fetch is observable. Holds in all four
listeners (part_000's `/static/` branch and the part_001/basic/guarded catch-all
cache-first branches). -/
theorem c6_cache_first_hit (net : Request → Option Response) (s : Store) (req : Request)
    (hit hit4 : Response)
    (hGet : req.method = "GET")
    (hst : jsStartsWith req.path "/static/" = true)
    (hnpred : jsStartsWith req.path "/predict" = false)
    (hnwarm : jsStartsWith req.path "/warmup" = false)
    (hninfo : jsStartsWith req.path "/info" = false)
    (hnui : (req.path == "/ui") = false)
    (hninfoe : (req.path == "/info") = false)
    (hnroot : (req.path == "/") = false)
    (hc : hasCache s STATIC_CACHE_v4 = true)
    (hhit4 : cacheMatchIn s STATIC_CACHE_v4 req = some hit4)
    (hhit : cachesMatch s req = some hit) :
    handleFetch_v4 net s req = (FetchOutcome.respond hit4, s)
    ∧ handleFetch_corrigido net s req = (FetchOutcome.respond hit, s)
    ∧ handleFetch_basic net s req = (FetchOutcome.respond hit, s)
    ∧ handleFetch_guarded net s req = (FetchOutcome.respond hit, s) := by
  have hGetb : (req.method == "GET") = true := by simp [hGet]
  have hPOST : (req.method == "POST") = false := by simp [hGet]
  have hopen := openCache_of_has s STATIC_CACHE_v4 hc
  refine ⟨?_, ?_, ?_, ?_⟩
  · simp [handleFetch_v4, hnpred, hst, hopen, hhit4]
  · simp [handleFetch_corrigido, hPOST, hnpred, hnui, hninfoe, hnroot, hhit]
  · simp [handleFetch_basic, hnpred, hnui, hninfo, hhit]
  · simp [handleFetch_guarded, hGetb, hnpred, hnwarm, hhit]

/-- Witness for C6: a stored `/static/pepper_info.json` entry is served by all four
listeners from a one-generation store, with the store unchanged. -/
theorem c6_cache_first_hit_witness :
    handleFetch_v4 netOK [(STATIC_CACHE_v4, [((selfOrigin, "/static/pepper_info.json"), respW)])]
        (mkGet "/static/pepper_info.json")
      = (FetchOutcome.respond respW,
         [(STATIC_CACHE_v4, [((selfOrigin, "/static/pepper_info.json"), respW)])])
    ∧ handleFetch_guarded netOK
        [(STATIC_CACHE_v4, [((selfOrigin, "/static/pepper_info.json"), respW)])]
        (mkGet "/static/pepper_info.json")
      = (FetchOutcome.respond respW,
         [(STATIC_CACHE_v4, [((selfOrigin, "/static/pepper_info.json"), respW)])]) :=
  ⟨(c6_cache_first_hit netOK _ _ respW respW rfl (by decide) (by decide) (by decide) (by decide)
      (by decide) (by decide) (by decide) (by decide) (by decide) (by decide)).1,
   (c6_cache_first_hit netOK _ _ respW respW rfl (by decide) (by decide) (by decide) (by decide)
      (by decide) (by decide) (by decide) (by decide) (by decide) (by decide)).2.2.2⟩

/-- Counterexample for C7: the part_000 cache-first branch stores every fulfilled
response — here a status-500 response for `/static/logo.png` ends up in the store,
although the claim says non-success responses are never written. -/
theorem c7_store_guard_counterexample :
    cacheMatchIn
        (handleFetch_v4 (fun _ => some { status := 500, body := "err" })
          [(STATIC_CACHE_v4, [])] (mkGet "/static/logo.png")).2
        STATIC_CACHE_v4 (mkGet "/static/logo.png")
      = some { status := 500, body := "err" }
    ∧ (500 : Nat) ≠ 200 := by decide

/-- C7 amended: only the sw.js guarded cache-first branch applies the store guard —
a fetched response is written back exactly when its status is 200 and the request
URL's origin equals `location.origin`; the response itself is returned to the caller
in either case. The part_000/part_001 cache-first branches store unconditionally. -/
theorem c7_store_guard (net : Request → Option Response) (s : Store) (req : Request)
    (r : Response)
    (hGet : req.method = "GET")
    (hnpred : jsStartsWith req.path "/predict" = false)
    (hnwarm : jsStartsWith req.path "/warmup" = false)
    (hmiss : cachesMatch s req = none)
    (hnet : net req = some r) :
    (handleFetch_guarded net s req).1 = FetchOutcome.respond r
    ∧ (r.status = 200 → req.origin = selfOrigin →
        (handleFetch_guarded net s req).2 = cachePut s CACHE_NAME_guarded req r
        ∧ cacheMatchIn (handleFetch_guarded net s req).2 CACHE_NAME_guarded req = some r)
    ∧ (¬ (r.status = 200 ∧ req.origin = selfOrigin) →
        (handleFetch_guarded net s req).2 = s) := by
  have hGetb : (req.method == "GET") = true := by simp [hGet]
  refine ⟨?_, ?_, ?_⟩
  · cases hcond : (r.status == 200 && req.origin == selfOrigin) <;>
      simp [handleFetch_guarded, hGetb, hnpred, hnwarm, hmiss, hnet, hcond]
  · intro h200 horig
    have hcond : (r.status == 200 && req.origin == selfOrigin) = true := by
      simp [h200, horig]
    constructor
    · simp [handleFetch_guarded, hGetb, hnpred, hnwarm, hmiss, hnet, hcond]
    · simp only [handleFetch_guarded, hGetb, hnpred, hnwarm, hmiss, hnet, hcond]
      simp [cacheMatchIn_cachePut s CACHE_NAME_guarded req r hGet]
  · intro hneg
    have hcond : (r.status == 200 && req.origin == selfOrigin) = false := by
      by_cases h200 : r.status = 200
      · have horig : req.origin ≠ selfOrigin := fun h => hneg ⟨h200, h⟩
        simp [horig]
      · simp [h200]
    simp [handleFetch_guarded, hGetb, hnpred, hnwarm, hmiss, hnet, hcond]

/-- Witness for C7 (amended): a 200 same-origin response for `/static/app.css` is
returned and stored by the guarded listener, and a subsequent match finds it. -/
theorem c7_store_guard_witness :
    (handleFetch_guarded netOK [] (mkGet "/static/app.css")).1
      = FetchOutcome.respond respOKv
    ∧ (handleFetch_guarded netOK [] (mkGet "/static/app.css")).2
      = cachePut [] CACHE_NAME_guarded (mkGet "/static/app.css") respOKv
    ∧ cacheMatchIn (handleFetch_guarded netOK [] (mkGet "/static/app.css")).2
        CACHE_NAME_guarded (mkGet "/static/app.css") = some respOKv :=
  ⟨(c7_store_guard netOK [] (mkGet "/static/app.css") respOKv rfl (by decide) (by decide)
      (by decide) rfl).1,
   ((c7_store_guard netOK [] (mkGet "/static/app.css") respOKv rfl (by decide) (by decide)
      (by decide) rfl).2.1 rfl rfl).1,
   ((c7_store_guard netOK [] (mkGet "/static/app.css") respOKv rfl (by decide) (by decide)
      (by decide) rfl).2.1 rfl rfl).2⟩

/-- Counterexample for C8: in the part_000 worker a GET `/predict` request is not
intercepted at all — when the network fails no synthesized 503 "Offline" response is
returned by the handler; the transport error reaches the caller. -/
theorem c8_volatile_counterexample :
    (handleFetch_v4 (fun _ => none) [] (mkGet "/predict")).1 = FetchOutcome.bypass
    ∧ FetchOutcome.bypass ≠ FetchOutcome.respond offline503 := by decide

/-- C8 amended: only the sw.js guarded listener implements the volatile-prefix
policy: a GET request under `/predict` or `/warmup` goes to the network with the
store untouched, the network's response is returned on success, and the synthesized
503 "Offline" response on failure; the other listeners bypass `/predict` entirely,
letting transport errors surface. -/
theorem c8_volatile_network_only (net : Request → Option Response) (s : Store) (req : Request)
    (hGet : req.method = "GET")
    (hvol : (jsStartsWith req.path "/predict" || jsStartsWith req.path "/warmup") = true) :
    (handleFetch_guarded net s req).2 = s
    ∧ (∀ r, net req = some r →
        (handleFetch_guarded net s req).1 = FetchOutcome.respond r)
    ∧ (net req = none →
        (handleFetch_guarded net s req).1 = FetchOutcome.respond offline503) := by
  have hGetb : (req.method == "GET") = true := by simp [hGet]
  refine ⟨?_, ?_, ?_⟩
  · cases hnet : net req <;> simp [handleFetch_guarded, hGetb, hvol, hnet]
  · intro r hnet
    simp [handleFetch_guarded, hGetb, hvol, hnet]
  · intro hnet
    simp [handleFetch_guarded, hGetb, hvol, hnet]

/-- Witness for C8 (amended): an offline GET `/predict` gets the 503 "Offline"
response from the guarded listener with the store untouched. -/
theorem c8_volatile_network_only_witness :
    (handleFetch_guarded (fun _ => none) [] (mkGet "/predict")).2 = []
    ∧ (handleFetch_guarded (fun _ => none) [] (mkGet "/predict")).1
      = FetchOutcome.respond offline503 :=
  ⟨(c8_volatile_network_only (fun _ => none) [] (mkGet "/predict") rfl (by decide)).1,
   (c8_volatile_network_only (fun _ => none) [] (mkGet "/predict") rfl (by decide)).2.2 rfl⟩

/-- C9: a network-first page request whose fetch fulfils is answered with the fresh
response while the same response is written into the current generation under the
request's key (the two `clone` copies of the source), so a subsequent match of that
key finds the fresh response. Holds for part_000 and part_001 on `/`, `/ui`,
`/info`, and for the sw.js basic strand on its page set (`/ui` and `/info*`). -/
theorem c9_network_first_stores (net : Request → Option Response) (s : Store) (req : Request)
    (r : Response)
    (hGet : req.method = "GET")
    (hnpred : jsStartsWith req.path "/predict" = false)
    (hnstat : jsStartsWith req.path "/static/" = false)
    (hpage : (req.path == "/" || req.path == "/ui" || req.path == "/info") = true)
    (hnet : net req = some r) :
    handleFetch_v4 net s req = (FetchOutcome.respond r, cachePut s STATIC_CACHE_v4 req r)
    ∧ handleFetch_corrigido net s req
      = (FetchOutcome.respond r, cachePut s CACHE_NAME_corrigido req r)
    ∧ ((req.path == "/ui" || jsStartsWith req.path "/info") = true →
        handleFetch_basic net s req = (FetchOutcome.respond r, cachePut s CACHE_basic req r))
    ∧ cacheMatchIn (cachePut s STATIC_CACHE_v4 req r) STATIC_CACHE_v4 req = some r
    ∧ cacheMatchIn (cachePut s CACHE_NAME_corrigido req r) CACHE_NAME_corrigido req = some r := by
  have hGetb : (req.method == "GET") = true := by simp [hGet]
  have hPOST : (req.method == "POST") = false := by simp [hGet]
  have hp3 : req.path = "/" ∨ req.path = "/ui" ∨ req.path = "/info" := by
    simpa [Bool.or_eq_true, beq_iff_eq, or_assoc] using hpage
  have hcor : (req.path == "/ui" || req.path == "/info" || req.path == "/") = true := by
    rcases hp3 with h | h | h <;> simp [h]
  refine ⟨?_, ?_, ?_, ?_, ?_⟩
  · simp [handleFetch_v4, hnpred, hnstat, hpage, hnet]
  · simp [handleFetch_corrigido, hPOST, hnpred, hcor, hnet]
  · intro hb
    simp [handleFetch_basic, hnpred, hb, hnet]
  · exact cacheMatchIn_cachePut _ _ _ _ hGet
  · exact cacheMatchIn_cachePut _ _ _ _ hGet

/-- Witness for C9: an online GET `/ui` is returned fresh and the fresh response is
found in the current generation afterwards. -/
theorem c9_network_first_stores_witness :
    handleFetch_v4 netOK [] (mkGet "/ui")
      = (FetchOutcome.respond respOKv, cachePut [] STATIC_CACHE_v4 (mkGet "/ui") respOKv)
    ∧ cacheMatchIn (cachePut [] STATIC_CACHE_v4 (mkGet "/ui") respOKv) STATIC_CACHE_v4
        (mkGet "/ui") = some respOKv :=
  ⟨(c9_network_first_stores netOK [] (mkGet "/ui") respOKv rfl (by decide) (by decide)
      (by decide) rfl).1,
   (c9_network_first_stores netOK [] (mkGet "/ui") respOKv rfl (by decide) (by decide)
      (by decide) rfl).2.2.2.1⟩

/-- C10 (implicit): the network-first store step has no status or origin guard — any
fulfilled response `r`, whatever its status, is written over the previous entry for
the key, and a later request for the same key while the network fails is answered
with that stored copy (via the basic strand's offline fallback path). -/
theorem c10_network_first_unconditional (net : Request → Option Response) (c : Cache)
    (req : Request) (r : Response)
    (hGet : req.method = "GET")
    (hnpred : jsStartsWith req.path "/predict" = false)
    (hbpage : (req.path == "/ui" || jsStartsWith req.path "/info") = true)
    (hnet : net req = some r) :
    handleFetch_basic net [(CACHE_basic, c)] req
      = (FetchOutcome.respond r, cachePut [(CACHE_basic, c)] CACHE_basic req r)
    ∧ cacheMatchIn (cachePut [(CACHE_basic, c)] CACHE_basic req r) CACHE_basic req = some r
    ∧ (∀ net2 : Request → Option Response, net2 req = none →
        handleFetch_basic net2 (cachePut [(CACHE_basic, c)] CACHE_basic req r) req
          = (FetchOutcome.respond r, cachePut [(CACHE_basic, c)] CACHE_basic req r)) := by
  have hGetb : (req.method == "GET") = true := by simp [hGet]
  have hs' : cachePut [(CACHE_basic, c)] CACHE_basic req r
      = [(CACHE_basic, putEntry c req.key r)] := by
    simp [cachePut, hGetb, openCache, hasCache]
  refine ⟨?_, ?_, ?_⟩
  · simp [handleFetch_basic, hnpred, hbpage, hnet]
  · exact cacheMatchIn_cachePut _ _ _ _ hGet
  · intro net2 h2
    have hcm : cachesMatch [(CACHE_basic, putEntry c req.key r)] req = some r := by
      simp [cachesMatch, hGetb, cacheLookup_putEntry]
    rw [hs']
    simp [handleFetch_basic, hnpred, hbpage, h2, hcm]

/-- Witness for C10: a 500 response fetched for `/ui` overwrites the cached good
copy and is served back later while offline. -/
theorem c10_network_first_unconditional_witness :
    handleFetch_basic (fun _ => some { status := 500, body := "boom" })
        [(CACHE_basic, [((selfOrigin, "/ui"), respW)])] (mkGet "/ui")
      = (FetchOutcome.respond { status := 500, body := "boom" },
         cachePut [(CACHE_basic, [((selfOrigin, "/ui"), respW)])] CACHE_basic (mkGet "/ui")
           { status := 500, body := "boom" })
    ∧ handleFetch_basic (fun _ => none)
        (cachePut [(CACHE_basic, [((selfOrigin, "/ui"), respW)])] CACHE_basic (mkGet "/ui")
          { status := 500, body := "boom" }) (mkGet "/ui")
      = (FetchOutcome.respond { status := 500, body := "boom" },
         cachePut [(CACHE_basic, [((selfOrigin, "/ui"), respW)])] CACHE_basic (mkGet "/ui")
           { status := 500, body := "boom" }) :=
  ⟨(c10_network_first_unconditional (fun _ => some { status := 500, body := "boom" })
      [((selfOrigin, "/ui"), respW)] (mkGet "/ui") { status := 500, body := "boom" } rfl
      (by decide) (by decide) rfl).1,
   (c10_network_first_unconditional (fun _ => some { status := 500, body := "boom" })
      [((selfOrigin, "/ui"), respW)] (mkGet "/ui") { status := 500, body := "boom" } rfl
      (by decide) (by decide) rfl).2.2 (fun _ => none) rfl⟩
